import Mathlib

/-!
Shallow embedding of the trust-evaluation core of the
`animo/eudi-wallet-functionality` repository, together with theorems that
settle the frozen claims about it.

The embedding follows the TypeScript sources line by line.  External
collaborators (JWS verification, X.509 parsing, the SD-JWT service, the
general DCQL engine, JWT parsing, URL validation and the wall clock) are
abstracted as explicit environment records whose fields stand for the calls
the code makes; everything written in the repository itself is modelled
directly.  JavaScript truthiness of optional strings, optional arrays and
numbers is modelled explicitly where the code relies on it.
-/

namespace EudiWallet


/-- JavaScript truthiness of a possibly-absent string value: `undefined` and
the empty string are falsy, every other string is truthy. -/
def truthyStr : Option String → Bool
  | none => false
  | some s => s ≠ ""

/-- JavaScript truthiness of a possibly-absent number: `undefined` and `0`
are falsy. -/
def truthyInt : Option Int → Bool
  | none => false
  | some v => v ≠ 0

/-- The `equalsIgnoreOrder` helper imported from `@credo-ts/core` (external
collaborator): two string arrays are equal ignoring order when they have the
same length and every element of the first occurs in the second. -/
def equalsIgnoreOrder (a b : List String) : Bool :=
  a.length == b.length && a.all (fun x => b.contains x)

/-- The `equalsWithOrder` helper imported from `@credo-ts/core` (external
collaborator): element-wise equality of two string arrays. -/
def equalsWithOrder (a b : List String) : Bool :=
  a == b

/-- A claims query entry as inspected by the matcher.  The code checks
`path in c` before reading `c.path`, so the field is optional here. -/
structure DcqlClaimQuery where
  path : Option (List String) := none
  deriving DecidableEq

/-- The `meta` object of a DCQL credential query. -/
structure CredentialMeta where
  doctype_value : Option String := none
  vct_values : Option (List String) := none
  deriving DecidableEq

/-- One entry of the `credentials` array of a DCQL query, restricted to the
fields the repository reads. -/
structure CredentialQuery where
  id : Option String := none
  format : String
  meta : Option CredentialMeta := none
  claims : Option (List DcqlClaimQuery) := none
  deriving DecidableEq

/-- A DCQL query: a list of credential queries plus an optional
`credential_sets` member.  Only the presence of `credential_sets` is ever
inspected (a present empty array is truthy in JavaScript), so its content is
not modelled. -/
structure DcqlQuery where
  credentials : List CredentialQuery
  credential_sets : Option Unit := none
  deriving DecidableEq

/-- Claim matching for `mso_mdoc` entries in `isDcqlQueryEqualOrSubset`:
`path in c && matchedRequest.claims?.some((mrc) => path in mrc &&
c.path[0] === mrc.path[0] && c.path[1] === mrc.path[1])`.  Out-of-range
indexing yields `undefined` on both sides, hence the `Option`-valued
`List.get?` comparison. -/
def mdocClaimAllowed (mrClaims : List DcqlClaimQuery) (c : DcqlClaimQuery) : Bool :=
  match c.path with
  | none => false
  | some p =>
    mrClaims.any fun mrc =>
      match mrc.path with
      | none => false
      | some q => p.get? 0 == q.get? 0 && p.get? 1 == q.get? 1

/-- Claim matching for the sd-jwt formats in `isDcqlQueryEqualOrSubset`:
`path in c && matchedRequest.claims?.some((mrc) => path in mrc &&
equalsWithOrder(c.path, mrc.path))`. -/
def sdJwtClaimAllowed (mrClaims : List DcqlClaimQuery) (c : DcqlClaimQuery) : Bool :=
  match c.path with
  | none => false
  | some p =>
    mrClaims.any fun mrc =>
      match mrc.path with
      | none => false
      | some q => equalsWithOrder p q

/-- The inner candidate loop of `isDcqlQueryEqualOrSubset`, shared by both
format cases.  The labelled `continue credentialQueryLoop` statements make
the request entry succeed as soon as some candidate has no `claims`, or as
soon as the request entry itself has no `claims` while a candidate exists;
otherwise the entry succeeds exactly when some candidate permits every
requested claim.  All three exits are success for the entry, so the loop is
an existential over the candidates. -/
def claimsSubsetHolds (claimAllowed : List DcqlClaimQuery → DcqlClaimQuery → Bool)
    (requestClaims : Option (List DcqlClaimQuery)) (cands : List CredentialQuery) : Bool :=
  cands.any fun mr =>
    match mr.claims with
    | none => true
    | some mrClaims =>
      match requestClaims with
      | none => true
      | some cs => cs.all (claimAllowed mrClaims)

/-- The body of the `credentialQueryLoop` of the two-argument
`isDcqlQueryEqualOrSubset` (src/isDcqlQueryEqualOrSubset.ts) for one request
credential entry.  Note that the `switch` of that variant has cases only for
`mso_mdoc` and `dc+sd-jwt`; every other format, including `vc+sd-jwt`,
reaches the `default` arm and fails. -/
def checkCredentialQuery (rcqCredentials : List CredentialQuery) (cq : CredentialQuery) : Bool :=
  let byFormat := rcqCredentials.filter fun c => c.format == cq.format
  if byFormat.isEmpty then false
  else if cq.format == "mso_mdoc" then
    -- const doctypeValue = credentialQuery.meta?.doctype_value; if (!doctypeValue) return false
    if !truthyStr (cq.meta.bind CredentialMeta.doctype_value) then false
    else
      match cq.meta.bind CredentialMeta.doctype_value with
      | none => false
      | some dv =>
        let cands := byFormat.filter fun c =>
          c.format == "mso_mdoc" &&
            (match c.meta with
             | some m => m.doctype_value == some dv
             | none => false)
        if cands.isEmpty then false
        else claimsSubsetHolds mdocClaimAllowed cq.claims cands
  else if cq.format == "dc+sd-jwt" then
    match cq.meta.bind CredentialMeta.vct_values with
    | none => false
    | some vs =>
      if vs.isEmpty then false
      else
        let cands := byFormat.filter fun c =>
          c.format == "dc+sd-jwt" &&
            (match c.meta.bind CredentialMeta.vct_values with
             | some ws => equalsIgnoreOrder ws vs
             | none => false)
        if cands.isEmpty then false
        else claimsSubsetHolds sdJwtClaimAllowed cq.claims cands
  else false

/-- The two-argument `isDcqlQueryEqualOrSubset(arq, rcq)` of
src/isDcqlQueryEqualOrSubset.ts: the pure subset/equality matcher used by
`verifyIfRegistrationCertificate` and `authorizeAttributeBasedAccessControl`. -/
def isDcqlQueryEqualOrSubset (arq rcq : DcqlQuery) : Bool :=
  if rcq.credential_sets.isSome then false
  else if rcq.credentials.any (fun c => truthyStr c.id) then false
  else if arq.credentials.any (fun c =>
      c.format ≠ "mso_mdoc" && c.format ≠ "vc+sd-jwt" && c.format ≠ "dc+sd-jwt") then false
  else arq.credentials.all (checkCredentialQuery rcq.credentials)

/-- The loop body of the context variant of `isDcqlQueryEqualOrSubset` (the
later revision taking an `AgentContext`): here the `switch` carries a shared
case for `dc+sd-jwt` and `vc+sd-jwt`, and the candidate filter accepts both
sd-jwt formats. -/
def checkCredentialQueryCtx (rcqCredentials : List CredentialQuery) (cq : CredentialQuery) : Bool :=
  let byFormat := rcqCredentials.filter fun c => c.format == cq.format
  if byFormat.isEmpty then false
  else if cq.format == "mso_mdoc" then
    if !truthyStr (cq.meta.bind CredentialMeta.doctype_value) then false
    else
      match cq.meta.bind CredentialMeta.doctype_value with
      | none => false
      | some dv =>
        let cands := byFormat.filter fun c =>
          c.format == "mso_mdoc" &&
            (match c.meta with
             | some m => m.doctype_value == some dv
             | none => false)
        if cands.isEmpty then false
        else claimsSubsetHolds mdocClaimAllowed cq.claims cands
  else if cq.format == "dc+sd-jwt" || cq.format == "vc+sd-jwt" then
    match cq.meta.bind CredentialMeta.vct_values with
    | none => false
    | some vs =>
      if vs.isEmpty then false
      else
        let cands := byFormat.filter fun c =>
          (c.format == "dc+sd-jwt" || c.format == "vc+sd-jwt") &&
            (match c.meta.bind CredentialMeta.vct_values with
             | some ws => equalsIgnoreOrder ws vs
             | none => false)
        if cands.isEmpty then false
        else claimsSubsetHolds sdJwtClaimAllowed cq.claims cands
  else false

/-- The context variant of `isDcqlQueryEqualOrSubset(agentContext, arq, rcq)`.
It first runs `dcqlService.validateDcqlQuery(arq)` (external DCQL engine,
abstracted as the predicate `validateDcqlQueryOk`; a validation failure
throws), then rejects reference queries with `credential_sets` or credential
ids, then short-circuits to `true` when `deepEquality(arq.credentials,
rcq.credentials)` holds, and otherwise runs the same per-entry matching as
the pure variant with the combined sd-jwt case. -/
def isDcqlQueryEqualOrSubsetCtx (validateDcqlQueryOk : DcqlQuery → Bool)
    (arq rcq : DcqlQuery) : Except String Bool :=
  if !validateDcqlQueryOk arq then
    .error "invalid dcql query"
  else if rcq.credential_sets.isSome then
    .ok false
  else if rcq.credentials.any (fun c => truthyStr c.id) then
    .ok false
  else if arq.credentials == rcq.credentials then
    .ok true
  else if arq.credentials.any (fun c =>
      c.format ≠ "mso_mdoc" && c.format ≠ "vc+sd-jwt" && c.format ≠ "dc+sd-jwt") then
    .ok false
  else
    .ok (arq.credentials.all (checkCredentialQueryCtx rcq.credentials))

/-- Concrete empty request query used in counterexamples. -/
def emptyRequestQuery : DcqlQuery := { credentials := [] }

/-- Concrete reference query whose only credential entry declares the id
field with the empty string as value. -/
def referenceQueryWithEmptyId : DcqlQuery :=
  { credentials := [{ id := some "", format := "vc+sd-jwt" }] }

/-- Concrete query that declares an id on its only credential entry (as every
validated holder-side DCQL query does). -/
def identicalQueryWithId : DcqlQuery :=
  { credentials := [{ id := some "a", format := "vc+sd-jwt",
                      meta := some { vct_values := some ["PID"] } }] }

/-- Concrete query without ids and without credential sets. -/
def identicalQueryWithoutId : DcqlQuery :=
  { credentials := [{ format := "dc+sd-jwt",
                      meta := some { vct_values := some ["PID"] },
                      claims := some [{ path := some ["given_name"] }] }] }

/-! Registration-certificate verification
(src/registration-certificate/verifyRegistrationCertificate.ts). -/

/-- JWT header fields inspected by the repository.  The header schema of the
registration certificate accepts any header whose `typ` is the literal
`rc-rp+jwt` (plus a required `alg` string, modelled as always present, and
optional `x5u` and `x5t#s256`, passed through unused). -/
structure JwtHeader where
  typ : Option String := none
  x5c : Option (List String) := none
  deriving DecidableEq

/-- The registration-certificate payload after a successful parse against
`registrationCertificatePayloadSchema`.  Only fields that are read
afterwards are modelled; `contact`, `services`, `entitlements`,
`privacy_policy`, `purpose` and `status` are validated by the schema but
never used.  The zod credential-entry object strips unknown keys, so a
parsed credential entry never carries an `id`; the top-level object is
`passthrough`, so an extra `credential_sets` member survives the parse and
is visible to the DCQL matcher through the cast below. -/
structure RegistrationCertificatePayload where
  credentials : List CredentialQuery
  sub : String
  iat : Option Int := none
  exp : Option Int := none
  credential_sets : Option Unit := none
  deriving DecidableEq

/-- The reference DCQL query obtained from the cast
`parsedPayload as unknown as DcqlQuery`: the matcher reads
`parsedPayload.credentials` and `parsedPayload.credential_sets`. -/
def registrationCertificateReferenceQuery (p : RegistrationCertificatePayload) : DcqlQuery :=
  { credentials := p.credentials, credential_sets := p.credential_sets }

/-- A registration-certificate JWT after `Jwt.fromSerializedJwt`. -/
structure RegistrationCertificateJwt where
  header : JwtHeader
  payload : RegistrationCertificatePayload
  deriving DecidableEq

/-- A JavaScript value that is either a string or something else; the
orchestrators test `typeof va.data !== "string"`. -/
inductive JsData where
  | str (s : String)
  | nonString
  deriving DecidableEq

/-- One entry of `verifier_attestations`. -/
structure VerifierAttestation where
  format : String
  data : JsData
  deriving DecidableEq

/-- The `signer` descriptor of a signed authorization request. -/
structure Signer where
  method : String
  x5c : List String
  deriving DecidableEq

/-- The signed authorization request wrapper. -/
structure SignedAuthorizationRequest where
  signer : Signer
  deriving DecidableEq

/-- The authorization-request payload fields the repository reads.  For
`presentation_definition` and `presentation_definition_uri` only presence
(JavaScript truthiness) matters. -/
structure AuthorizationRequestPayload where
  verifier_attestations : Option (List VerifierAttestation) := none
  presentation_definition : Bool := false
  presentation_definition_uri : Bool := false
  deriving DecidableEq

/-- The resolved DCQL result attached to a resolved request. -/
structure DcqlQueryResult where
  queryResult : DcqlQuery
  deriving DecidableEq

/-- A resolved OpenID4VP authorization request. -/
structure ResolvedAuthorizationRequest where
  authorizationRequestPayload : AuthorizationRequestPayload
  signedAuthorizationRequest : Option SignedAuthorizationRequest := none
  dcql : Option DcqlQueryResult := none
  deriving DecidableEq

/-- External collaborators used by the registration-certificate code:
`Jwt.fromSerializedJwt` (header-only view for `isRegistrationCertificate`,
full view for `verifyIfRegistrationCertificate`; `none` models a parse
throw), `jwsService.verifyJws` (`.error` models a thrown error, `.ok b` the
reported `isValid`), `X509Certificate.fromEncodedCertificate(_).subject`,
and the wall clock `new Date().getTime() / 1000` in seconds. -/
structure CryptoEnv where
  parseJwtHeader : String → Option JwtHeader
  parseRegCert : String → Option RegistrationCertificateJwt
  verifyJws : List String → Except Unit Bool
  certSubject : String → String
  nowSeconds : Int

/-- `isRegistrationCertificate(format, jwt)`: true only for format `jwt`
whose data parses with header `typ` equal to `rc-rp+jwt`; parse failures
yield false. -/
def isRegistrationCertificate (parseJwtHeader : String → Option JwtHeader)
    (format : String) (jwt : String) : Bool :=
  if format ≠ "jwt" then false
  else
    match parseJwtHeader jwt with
    | some h => h.typ == some "rc-rp+jwt"
    | none => false

/-- The `VerifyIfRegistrationCertificateReturnContext` result record. -/
structure VerifyIfRegistrationCertificateReturnContext where
  isValid : Bool
  isSignedWithX509 : Option Bool := none
  isAccessCertificateSubjectEqualToRegistrationCertificate : Option Bool := none
  isTimestampValid : Option Bool := none
  isJwsValid : Option Bool := none
  isRegistrationCertificateQueryEqualOrSubsetOfAuthorizationRequestQuery : Option Bool := none
  isDcqlUsed : Option Bool := none
  deriving DecidableEq

/-- Options of `verifyIfRegistrationCertificate`. -/
structure VerifyRegistrationCertificateOptions where
  registrationCertificate : String
  resolvedAuthorizationRequest : ResolvedAuthorizationRequest
  trustedCertificates : Option (List String) := none
  allowUntrustedSigned : Bool := false

/-- The configuration guard
`(!trustedCertificates || trustedCertificates.length === 0) && !allowUntrustedSigned`. -/
def missingTrustAnchors (trustedCertificates : Option (List String))
    (allowUntrustedSigned : Bool) : Bool :=
  (match trustedCertificates with
   | none => true
   | some l => l.isEmpty) && !allowUntrustedSigned

/-- The certificate list handed to `jwsService.verifyJws`: with
`allowUntrustedSigned` the trusted certificates unioned with the
certificate chain of the registration-certificate header, else the trusted
certificates alone. -/
def jwsCertsInput (trustedCertificates : Option (List String))
    (allowUntrustedSigned : Bool) (headerX5c : Option (List String)) : List String :=
  if allowUntrustedSigned then trustedCertificates.getD [] ++ headerX5c.getD []
  else trustedCertificates.getD []

/-- Net outcome of the `try { isValid = await verifySignature(...) } catch`
block: a thrown error counts as a failed verification. -/
def jwsCheckOk (env : CryptoEnv) (certs : List String) : Bool :=
  match env.verifyJws certs with
  | .ok b => b
  | .error _ => false

/-- The freshness condition
`parsedPayload.iat && new Date().getTime() / 1000 <= parsedPayload.iat`
(an `iat` of `0` is falsy and skips the check). -/
def staleIatCheck (iat : Option Int) (now : Int) : Bool :=
  match iat with
  | some v => decide (v ≠ 0) && decide (now ≤ v)
  | none => false

/-- Mutation performed by the signature-verification block on the result
record. -/
def applyJwsCheck (ok : Bool) (r : VerifyIfRegistrationCertificateReturnContext) :
    VerifyIfRegistrationCertificateReturnContext :=
  if ok then r else { r with isValid := false, isJwsValid := some false }

/-- Mutation performed by the subject-binding check
(`rpCert.subject !== parsedPayload.sub`). -/
def applySubjectCheck (subjectMatches : Bool)
    (r : VerifyIfRegistrationCertificateReturnContext) :
    VerifyIfRegistrationCertificateReturnContext :=
  if subjectMatches then r
  else { r with isValid := false,
                isAccessCertificateSubjectEqualToRegistrationCertificate := some false }

/-- Mutation performed by the freshness check. -/
def applyTimestampCheck (stale : Bool)
    (r : VerifyIfRegistrationCertificateReturnContext) :
    VerifyIfRegistrationCertificateReturnContext :=
  if stale then { r with isValid := false, isTimestampValid := some false } else r

/-- Mutation performed by the DCQL-compatibility check. -/
def applyDcqlCheck (ok : Bool)
    (r : VerifyIfRegistrationCertificateReturnContext) :
    VerifyIfRegistrationCertificateReturnContext :=
  if ok then r
  else { r with isValid := false,
                isRegistrationCertificateQueryEqualOrSubsetOfAuthorizationRequestQuery := some false }

/-- The sequential build-up of the return context once all early returns and
thrown errors are passed: signature check, subject binding, freshness, DCQL
compatibility, in source order, starting from `{ isValid: true }`. -/
def regCertChecksResult (env : CryptoEnv) (jwt : RegistrationCertificateJwt)
    (trustedCertificates : Option (List String)) (allowUntrustedSigned : Bool)
    (queryResult : DcqlQuery) (rpCertEncoded : String) :
    VerifyIfRegistrationCertificateReturnContext :=
  applyDcqlCheck
    (isDcqlQueryEqualOrSubset queryResult (registrationCertificateReferenceQuery jwt.payload))
    (applyTimestampCheck (staleIatCheck jwt.payload.iat env.nowSeconds)
      (applySubjectCheck (env.certSubject rpCertEncoded == jwt.payload.sub)
        (applyJwsCheck
          (jwsCheckOk env (jwsCertsInput trustedCertificates allowUntrustedSigned jwt.header.x5c))
          { isValid := true })))

/-- `verifyIfRegistrationCertificate`.  `.error` models a thrown error
(configuration error, JWT parse failure, schema violation, certificate
parse failure); `.ok` is the returned context. -/
def verifyIfRegistrationCertificate (env : CryptoEnv)
    (o : VerifyRegistrationCertificateOptions) :
    Except String VerifyIfRegistrationCertificateReturnContext :=
  if missingTrustAnchors o.trustedCertificates o.allowUntrustedSigned then
    .error "Either provide trusted certificates, or allow for untrusted signers"
  else
    match o.resolvedAuthorizationRequest.dcql with
    | none => .ok { isValid := false, isDcqlUsed := some false }
    | some d =>
      if o.resolvedAuthorizationRequest.authorizationRequestPayload.presentation_definition
          || o.resolvedAuthorizationRequest.authorizationRequestPayload.presentation_definition_uri then
        .ok { isValid := false, isDcqlUsed := some false }
      else
        match o.resolvedAuthorizationRequest.signedAuthorizationRequest with
        | none => .ok { isValid := false, isSignedWithX509 := some false }
        | some sar =>
          if sar.signer.method ≠ "x5c" then
            .ok { isValid := false, isSignedWithX509 := some false }
          else
            match env.parseRegCert o.registrationCertificate with
            | none => .error "Jwt.fromSerializedJwt failed"
            | some jwt =>
              if jwt.header.typ ≠ some "rc-rp+jwt" then
                .error "registration certificate header schema violation"
              else
                match sar.signer.x5c.head? with
                | none => .error "X509Certificate.fromEncodedCertificate failed"
                | some rpCertEncoded =>
                  .ok (regCertChecksResult env jwt o.trustedCertificates
                        o.allowUntrustedSigned d.queryResult rpCertEncoded)

/-! Concrete scenario data used by evidence and witness theorems. -/

/-- DCQL request of end-to-end scenario 1: one `vc+sd-jwt` entry for the
`PID` vct asking for the `given_name` claim. -/
def scenario1RequestQuery : DcqlQuery :=
  { credentials := [{ format := "vc+sd-jwt",
                      meta := some { vct_values := some ["PID"] },
                      claims := some [{ path := some ["given_name"] }] }] }

/-- Registration-certificate payload of scenario 1: one `vc+sd-jwt`
credential for `PID` with no claims restriction, subject `CN=RP`, issued in
the past. -/
def scenario1Payload : RegistrationCertificatePayload :=
  { credentials := [{ format := "vc+sd-jwt",
                      meta := some { vct_values := some ["PID"] } }],
    sub := "CN=RP", iat := some 100 }

/-- The scenario-1 registration certificate JWT. -/
def scenario1Jwt : RegistrationCertificateJwt :=
  { header := { typ := some "rc-rp+jwt", x5c := some [] },
    payload := scenario1Payload }

/-- The scenario-1 resolved authorization request: DCQL used, signed with an
x5c chain. -/
def scenario1Resolved : ResolvedAuthorizationRequest :=
  { authorizationRequestPayload := {},
    signedAuthorizationRequest := some { signer := { method := "x5c", x5c := ["rp-cert"] } },
    dcql := some { queryResult := scenario1RequestQuery } }

/-- The scenario-1 environment: signature verification succeeds against the
trusted certificates, the signer subject is `CN=RP`, the clock reads 1000
seconds. -/
def scenario1Env : CryptoEnv :=
  { parseJwtHeader := fun _ => some { typ := some "rc-rp+jwt" },
    parseRegCert := fun _ => some scenario1Jwt,
    verifyJws := fun _ => .ok true,
    certSubject := fun _ => "CN=RP",
    nowSeconds := 1000 }

/-- The scenario-1 call options. -/
def scenario1Options : VerifyRegistrationCertificateOptions :=
  { registrationCertificate := "rc-jwt",
    resolvedAuthorizationRequest := scenario1Resolved,
    trustedCertificates := some ["anchor"] }

/-- Request query for the freshness and signature-failure witnesses: one
`dc+sd-jwt` entry for `PID`. -/
def pidSdJwtRequestQuery : DcqlQuery :=
  { credentials := [{ format := "dc+sd-jwt",
                      meta := some { vct_values := some ["PID"] },
                      claims := some [{ path := some ["given_name"] }] }] }

/-- Payload for the freshness witnesses, parametrised over `iat`. -/
def pidRegCertPayload (iat : Option Int) : RegistrationCertificatePayload :=
  { credentials := [{ format := "dc+sd-jwt",
                      meta := some { vct_values := some ["PID"] } }],
    sub := "CN=RP", iat := iat }

/-- Registration-certificate JWT for the freshness witnesses. -/
def pidRegCertJwt (iat : Option Int) : RegistrationCertificateJwt :=
  { header := { typ := some "rc-rp+jwt", x5c := some [] },
    payload := pidRegCertPayload iat }

/-- Resolved request for the freshness and signature-failure witnesses. -/
def pidResolvedRequest : ResolvedAuthorizationRequest :=
  { authorizationRequestPayload := {},
    signedAuthorizationRequest := some { signer := { method := "x5c", x5c := ["rp-cert"] } },
    dcql := some { queryResult := pidSdJwtRequestQuery } }

/-- Options for the freshness and signature-failure witnesses. -/
def pidRegCertOptions : VerifyRegistrationCertificateOptions :=
  { registrationCertificate := "rc-jwt",
    resolvedAuthorizationRequest := pidResolvedRequest,
    trustedCertificates := some ["anchor"] }

/-- Environment whose registration certificate has `iat = 200`, one hour
conceptually ahead of the clock reading 100 seconds. -/
def futureIatEnv : CryptoEnv :=
  { parseJwtHeader := fun _ => some { typ := some "rc-rp+jwt" },
    parseRegCert := fun _ => some (pidRegCertJwt (some 200)),
    verifyJws := fun _ => .ok true,
    certSubject := fun _ => "CN=RP",
    nowSeconds := 100 }

/-- Environment whose registration certificate has `iat = 99`, one second
before the clock reading 100 seconds. -/
def pastIatEnv : CryptoEnv :=
  { parseJwtHeader := fun _ => some { typ := some "rc-rp+jwt" },
    parseRegCert := fun _ => some (pidRegCertJwt (some 99)),
    verifyJws := fun _ => .ok true,
    certSubject := fun _ => "CN=RP",
    nowSeconds := 100 }

/-- Environment in which `jwsService.verifyJws` reports an invalid signature
and the signer subject differs from the certificate subject. -/
def failedJwsEnv : CryptoEnv :=
  { parseJwtHeader := fun _ => some { typ := some "rc-rp+jwt" },
    parseRegCert := fun _ => some (pidRegCertJwt (some 50)),
    verifyJws := fun _ => .ok false,
    certSubject := fun _ => "CN=Other",
    nowSeconds := 100 }

/-! Top-level orchestrators: `verifyOpenid4VpAuthorizationRequest`
(the revision pairing the context-variant classifiers) and
`verifyRegistrationCertificateInOpenid4VpAuthorizationRequest`
(src/registration-certificate/). -/

/-- The per-attestation helpers called by `verifyOpenid4VpAuthorizationRequest`
after its format and inline-data guards: the context-variant revision of
`isRegistrationCertificate(agentContext, data)`, the registration-certificate
verifier, and the context-variant `isAuthorizationAttestation` with its
verifier.  They belong to other source functions and are abstracted here;
the claim about this orchestrator concerns only the guards that run before
them. -/
structure OrchestrationEnv where
  isRegistrationCertificateCtx : String → Bool
  verifyIfRegistrationCertificateCtx :
    String → Except String VerifyIfRegistrationCertificateReturnContext
  isAuthorizationAttestationCtx : String → Bool
  verifyAuthorizationAttestationCtx : String → Except String Unit

/-- The attestation loop of `verifyOpenid4VpAuthorizationRequest`: reject a
format other than `jwt`, reject non-string data, classify, verify, and keep
the last registration-certificate result. -/
def verifyOpenid4VpAuthorizationRequestLoop (env : OrchestrationEnv) :
    List VerifierAttestation → Option VerifyIfRegistrationCertificateReturnContext →
    Except String (Option VerifyIfRegistrationCertificateReturnContext)
  | [], acc => .ok acc
  | va :: rest, acc =>
    if va.format ≠ "jwt" then .error "only format of jwt is supported"
    else
      match va.data with
      | .nonString => .error "Only inline JWTs are supported"
      | .str s =>
        if env.isRegistrationCertificateCtx s then
          match env.verifyIfRegistrationCertificateCtx s with
          | .error e => .error e
          | .ok c =>
            if env.isAuthorizationAttestationCtx s then
              match env.verifyAuthorizationAttestationCtx s with
              | .error e => .error e
              | .ok _ => verifyOpenid4VpAuthorizationRequestLoop env rest (some c)
            else verifyOpenid4VpAuthorizationRequestLoop env rest (some c)
        else
          if env.isAuthorizationAttestationCtx s then
            match env.verifyAuthorizationAttestationCtx s with
            | .error e => .error e
            | .ok _ => verifyOpenid4VpAuthorizationRequestLoop env rest acc
          else verifyOpenid4VpAuthorizationRequestLoop env rest acc

/-- `verifyOpenid4VpAuthorizationRequest`: absent `verifier_attestations`
yield `undefined`; otherwise every entry passes the format and inline-data
guards and is dispatched. -/
def verifyOpenid4VpAuthorizationRequest (env : OrchestrationEnv)
    (resolved : ResolvedAuthorizationRequest) :
    Except String (Option VerifyIfRegistrationCertificateReturnContext) :=
  match resolved.authorizationRequestPayload.verifier_attestations with
  | none => .ok none
  | some vas => verifyOpenid4VpAuthorizationRequestLoop env vas none

/-- The attestation loop of
`verifyRegistrationCertificateInOpenid4VpAuthorizationRequest`: reject
non-string data, verify entries classified as registration certificates,
silently skip everything else (there is no format guard in this entry
point). -/
def verifyRegistrationCertificateInOpenid4VpAuthorizationRequestLoop (env : CryptoEnv)
    (resolved : ResolvedAuthorizationRequest) (trustedCertificates : Option (List String))
    (allowUntrustedSigned : Bool) :
    List VerifierAttestation → Option VerifyIfRegistrationCertificateReturnContext →
    Except String (Option VerifyIfRegistrationCertificateReturnContext)
  | [], acc => .ok acc
  | va :: rest, acc =>
    match va.data with
    | .nonString => .error "Authorization Attestations of string are currently only supported"
    | .str s =>
      if isRegistrationCertificate env.parseJwtHeader va.format s then
        match verifyIfRegistrationCertificate env
            { registrationCertificate := s, resolvedAuthorizationRequest := resolved,
              trustedCertificates := trustedCertificates,
              allowUntrustedSigned := allowUntrustedSigned } with
        | .error e => .error e
        | .ok c =>
          verifyRegistrationCertificateInOpenid4VpAuthorizationRequestLoop env resolved
            trustedCertificates allowUntrustedSigned rest (some c)
      else
        verifyRegistrationCertificateInOpenid4VpAuthorizationRequestLoop env resolved
          trustedCertificates allowUntrustedSigned rest acc

/-- `verifyRegistrationCertificateInOpenid4VpAuthorizationRequest`. -/
def verifyRegistrationCertificateInOpenid4VpAuthorizationRequest (env : CryptoEnv)
    (resolved : ResolvedAuthorizationRequest) (trustedCertificates : Option (List String))
    (allowUntrustedSigned : Bool) :
    Except String (Option VerifyIfRegistrationCertificateReturnContext) :=
  match resolved.authorizationRequestPayload.verifier_attestations with
  | none => .ok none
  | some vas =>
    verifyRegistrationCertificateInOpenid4VpAuthorizationRequestLoop env resolved
      trustedCertificates allowUntrustedSigned vas none

/-- A resolved request carrying one verifier attestation with a non-`jwt`
format and inline string data. -/
def nonJwtAttestationRequest : ResolvedAuthorizationRequest :=
  { authorizationRequestPayload :=
      { verifier_attestations := some [{ format := "cheese", data := .str "x" }] } }

/-- A resolved request carrying one verifier attestation whose data is not a
string. -/
def nonStringAttestationRequest : ResolvedAuthorizationRequest :=
  { authorizationRequestPayload :=
      { verifier_attestations := some [{ format := "jwt", data := .nonString }] } }

/-- Concrete orchestration environment for the C8 witness. -/
def plainOrchestrationEnv : OrchestrationEnv :=
  { isRegistrationCertificateCtx := fun _ => false,
    verifyIfRegistrationCertificateCtx := fun _ => .ok { isValid := false },
    isAuthorizationAttestationCtx := fun _ => false,
    verifyAuthorizationAttestationCtx := fun _ => .ok () }

/-! Disclosure-policy evaluation (src/disclosure-policy/). -/

/-- `isAuthorizationAttestation(format, data)` of
src/disclosure-policy/verifyAuthorizationAttestation.ts: the implementation
first requires `format === "eudi_registration_certifiate"` (sic) and only
then negates `isRegistrationCertificate(format, jwt)`. -/
def isAuthorizationAttestation (parseJwtHeader : String → Option JwtHeader)
    (format : String) (jwt : String) : Bool :=
  if format ≠ "eudi_registration_certifiate" then false
  else !(isRegistrationCertificate parseJwtHeader format jwt)

/-- A stored disclosure-policy value as an untyped JavaScript object: the
dispatcher tests key presence with the `in` operator, so each key the code
ever mentions is modelled as an optional member.  Note the dispatcher tests
the camel-cased key `allowList` while the `AllowListPolicy` type and
`validateAllowListPolicy` use the lower-cased key `allowlist`. -/
structure StoredPolicy where
  allowList : Option (List String) := none
  allowlist : Option (List String) := none
  rootOfTrust : Option String := none
  attribute_based_access_control : Option DcqlQuery := none
  deriving DecidableEq

/-- `validateAllowListPolicy(policy, cert)` returns
`policy.allowlist.includes(cert.subject)`.  If the object reaches it without
an `allowlist` member the member read yields `undefined` and the `includes`
call throws a `TypeError`, modelled as `.error`. -/
def validateAllowListPolicy (p : StoredPolicy) (relyingPartySubject : String) :
    Except String Bool :=
  match p.allowlist with
  | some l => .ok (l.contains relyingPartySubject)
  | none => .error "TypeError: reading includes of undefined"

/-- `validateRootOfTrustPolicy`: the source is a stub that returns true
unconditionally. -/
def validateRootOfTrustPolicy (_p : StoredPolicy) : Bool := true

/-- A stored credential record: only its metadata key-value store is read. -/
structure CredentialRecord where
  metadata : List (String × StoredPolicy)
  deriving DecidableEq

/-- `credentialRecord.metadata.get(key)`: `none` when the key is absent. -/
def metadataGet (m : List (String × StoredPolicy)) (key : String) : Option StoredPolicy :=
  (m.find? (fun kv => kv.1 == key)).map (fun kv => kv.2)

/-- External collaborators of the disclosure-policy evaluators: the X.509
subject reader, the JWT header parse used when filtering authorization
attestations, and the two revisions of
`validateAttributeBasedAccessControlPolicy` (the synchronous one used by the
throw-mode evaluator, which can throw from `fromCompact`, and the
options-object one used by the diagnostic evaluator, which catches
internally and returns a boolean; the latter closes over the trusted
certificates and the untrusted-signing flag). -/
structure DisclosureEnv where
  certSubject : String → String
  parseJwtHeader : String → Option JwtHeader
  validateAbacSync : DcqlQuery → List String → Except String Bool
  validateAbacWithVerification : DcqlQuery → List String → Bool

/-- `getAuthorizationAttestations(request)`: the string-data verifier
attestations accepted by `isAuthorizationAttestation`. -/
def getAuthorizationAttestations (parseJwtHeader : String → Option JwtHeader)
    (p : AuthorizationRequestPayload) : List String :=
  match p.verifier_attestations with
  | none => []
  | some vas =>
    vas.filterMap fun va =>
      match va.data with
      | .str s => if isAuthorizationAttestation parseJwtHeader va.format s then some s else none
      | .nonString => none

/-- The credential loop of the throw-mode
`verifyAuthorizationForOpenid4VpAuthorizationRequest`
(src/disclosure-policy/verifyAuthorizationForOpenid4VpAuthorizationRequest.ts):
look up the policy under the `__disclosurePolicy` metadata key, dispatch on
the keys `allowList`, `rootOfTrust`, `attribute_based_access_control`, and
throw on anything else. -/
def verifyAuthorizationForOpenid4VpAuthorizationRequestLoop (env : DisclosureEnv)
    (resolved : ResolvedAuthorizationRequest)
    (trustedRootCertificates : Option (List String)) :
    List (String × CredentialRecord) → Except String Unit
  | [] => .ok ()
  | (credentialId, rec) :: rest =>
    match metadataGet rec.metadata "__disclosurePolicy" with
    | none =>
      verifyAuthorizationForOpenid4VpAuthorizationRequestLoop env resolved
        trustedRootCertificates rest
    | some p =>
      if p.allowList.isSome then
        match resolved.signedAuthorizationRequest with
        | none =>
          .error ("Allow list was used and authorization request must be signed. Discovered in credential id: "
            ++ credentialId)
        | some sar =>
          if sar.signer.method ≠ "x5c" then
            .error ("Allow list was used and authorization request must be signed with x5c to determine the access certificate. Discovered in credential id: "
              ++ credentialId)
          else
            match sar.signer.x5c.head? with
            | none => .error "X509Certificate.fromEncodedCertificate failed"
            | some enc =>
              match validateAllowListPolicy p (env.certSubject enc) with
              | .error e => .error e
              | .ok true =>
                verifyAuthorizationForOpenid4VpAuthorizationRequestLoop env resolved
                  trustedRootCertificates rest
              | .ok false =>
                .error ("Allow list policy was used, but the relying party access certificate was not allowed to make the request. Discovered in credential id: "
                  ++ credentialId)
      else if p.rootOfTrust.isSome then
        if trustedRootCertificates.isNone then
          .error ("rootOfTrust disclosure policy found, but no trustedRootCertificates were provided. Discovered in credential id: "
            ++ credentialId)
        else if validateRootOfTrustPolicy p then
          verifyAuthorizationForOpenid4VpAuthorizationRequestLoop env resolved
            trustedRootCertificates rest
        else
          .error ("allow list policy was used, but the rp access certificate was not allowed to make the request. Discovered in credential id: "
            ++ credentialId)
      else
        match p.attribute_based_access_control with
        | some q =>
          match env.validateAbacSync q
              (getAuthorizationAttestations env.parseJwtHeader
                resolved.authorizationRequestPayload) with
          | .error e => .error e
          | .ok true =>
            verifyAuthorizationForOpenid4VpAuthorizationRequestLoop env resolved
              trustedRootCertificates rest
          | .ok false =>
            .error ("Attribute based access control disclosure policy was found, but it did not match the dcql query in the authorization request. Discovered for credentialId: "
              ++ credentialId)
        | none => .error "Found an unsupported disclosure policy: [object Object]"

/-- The throw-mode disclosure-policy evaluator
`verifyAuthorizationForOpenid4VpAuthorizationRequest`. -/
def verifyAuthorizationForOpenid4VpAuthorizationRequest (env : DisclosureEnv)
    (resolved : ResolvedAuthorizationRequest)
    (matchedCredentials : List (String × CredentialRecord))
    (trustedRootCertificates : Option (List String)) : Except String Unit :=
  verifyAuthorizationForOpenid4VpAuthorizationRequestLoop env resolved
    trustedRootCertificates matchedCredentials

/-- Per-credential outcome record of the diagnostic evaluator. -/
structure PolicyOutcome where
  isAllowListPolicyValid : Option Bool := none
  isRootOfTrustPolicyValid : Option Bool := none
  isAttributeBasedAccessControlValid : Option Bool := none
  deriving DecidableEq

/-- Return context of the diagnostic evaluator
(`VerifyDisclosurePoliciesForOpenId4VpAuthorizationRequestReturnContext`). -/
structure VerifyDisclosurePoliciesReturnContext where
  isValid : Bool
  isSignedWithX509 : Bool
  disclosurePolicies : List (String × PolicyOutcome)
  deriving DecidableEq

/-- The credential loop of the diagnostic evaluator
(src/disclosure-policy/verifyDisclosurePoliciesForOpenid4VpAuthorizationRequest.ts):
policies are looked up under the `eudi::disclosurePolicy` metadata key and
each present policy contributes one outcome record, keyed by credential id. -/
def verifyDisclosurePoliciesLoop (env : DisclosureEnv) (subject : String)
    (resolved : ResolvedAuthorizationRequest) :
    List (String × CredentialRecord) → Except String (List (String × PolicyOutcome))
  | [] => .ok []
  | (credentialId, rec) :: rest =>
    match metadataGet rec.metadata "eudi::disclosurePolicy" with
    | none => verifyDisclosurePoliciesLoop env subject resolved rest
    | some p =>
      match (if p.allowList.isSome
             then (validateAllowListPolicy p subject).map some
             else .ok none) with
      | .error e => .error e
      | .ok av =>
        let rv := if p.rootOfTrust.isSome then some (validateRootOfTrustPolicy p) else none
        let abacv :=
          match p.attribute_based_access_control with
          | some q =>
            some (env.validateAbacWithVerification q
              (getAuthorizationAttestations env.parseJwtHeader
                resolved.authorizationRequestPayload))
          | none => none
        match verifyDisclosurePoliciesLoop env subject resolved rest with
        | .error e => .error e
        | .ok tail =>
          .ok ((credentialId,
                { isAllowListPolicyValid := av,
                  isRootOfTrustPolicyValid := rv,
                  isAttributeBasedAccessControlValid := abacv }) :: tail)

/-- The diagnostic-mode evaluator, exported under the same name
`verifyAuthorizationForOpenid4VpAuthorizationRequest` in its own file and
modelled here with a `Diagnostic` suffix.  The final `isValid` mirrors
`Object.values(err).map(...).every((value) => value !== false)`: the three
members of the context (the initial `isValid`, `isSignedWithX509` and the
`.some(...)` over the per-credential outcome objects, where `undefined` and
`false` flags are falsy) must all be different from `false`. -/
def verifyAuthorizationForOpenid4VpAuthorizationRequestDiagnostic (env : DisclosureEnv)
    (resolved : ResolvedAuthorizationRequest)
    (matchedCredentials : List (String × CredentialRecord)) :
    Except String VerifyDisclosurePoliciesReturnContext :=
  match resolved.signedAuthorizationRequest with
  | none => .ok { isValid := false, isSignedWithX509 := false, disclosurePolicies := [] }
  | some sar =>
    if sar.signer.method ≠ "x5c" then
      .ok { isValid := false, isSignedWithX509 := false, disclosurePolicies := [] }
    else
      match sar.signer.x5c.head? with
      | none => .error "X509Certificate.fromEncodedCertificate failed"
      | some enc =>
        match verifyDisclosurePoliciesLoop env (env.certSubject enc) resolved
            matchedCredentials with
        | .error e => .error e
        | .ok policies =>
          let policiesAggregate := policies.any fun kv =>
            kv.2.isAllowListPolicyValid.getD false ||
            kv.2.isRootOfTrustPolicyValid.getD false ||
            kv.2.isAttributeBasedAccessControlValid.getD false
          .ok { isValid := [true, true, policiesAggregate].all id,
                isSignedWithX509 := true,
                disclosurePolicies := policies }

/-! Concrete disclosure-policy scenario data. -/

/-- The stored policy of end-to-end scenario 4:
`{ allowlist: ["CN=Trusted RP"] }`. -/
def trustedRpAllowlistPolicy : StoredPolicy := { allowlist := some ["CN=Trusted RP"] }

/-- Matched credentials holding scenario 4s policy under the
`__disclosurePolicy` key of credential `credential-1`. -/
def allowlistMatchedCredentials : List (String × CredentialRecord) :=
  [("credential-1", { metadata := [("__disclosurePolicy", trustedRpAllowlistPolicy)] })]

/-- Matched credentials whose single record stores no disclosure policy. -/
def noPolicyMatchedCredentials : List (String × CredentialRecord) :=
  [("cred-1", { metadata := [] })]

/-- A resolved request signed with an x5c chain and carrying nothing else. -/
def x5cSignedResolved : ResolvedAuthorizationRequest :=
  { authorizationRequestPayload := {},
    signedAuthorizationRequest := some { signer := { method := "x5c", x5c := ["rp-cert"] } } }

/-- Disclosure environment whose access certificate subject is
`CN=Trusted RP`. -/
def trustedSubjectEnv : DisclosureEnv :=
  { certSubject := fun _ => "CN=Trusted RP",
    parseJwtHeader := fun _ => none,
    validateAbacSync := fun _ _ => .ok true,
    validateAbacWithVerification := fun _ _ => true }

/-- Disclosure environment whose access certificate subject is
`CN=Other RP`. -/
def otherSubjectEnv : DisclosureEnv :=
  { certSubject := fun _ => "CN=Other RP",
    parseJwtHeader := fun _ => none,
    validateAbacSync := fun _ _ => .ok true,
    validateAbacWithVerification := fun _ _ => true }

/-! Authorization-attestation verification
(src/disclosure-policy/verifyAuthorizationAttestation.ts). -/

/-- Header of an authorization attestation; the schema requires `alg` (a
string, modelled as always present), `typ` equal to the literal `dc+sd-jwt`
and an `x5c` string array. -/
structure AuthorizationAttestationHeader where
  typ : Option String := none
  x5c : Option (List String) := none
  deriving DecidableEq

/-- Payload of an authorization attestation; the schema requires `iss`,
`sub`, `status.status_list.idx`, `status.status_list.uri` (a URL), `iat`,
and optional `exp` and `cnf`. -/
structure AuthorizationAttestationPayload where
  iss : String := ""
  sub : String
  status_list_idx : Int := 0
  status_list_uri : String := ""
  iat : Int := 0
  exp : Option Int := none
  cnf : Option String := none
  deriving DecidableEq

/-- An authorization-attestation JWT after `Jwt.fromSerializedJwt`. -/
structure AuthorizationAttestationJwt where
  header : AuthorizationAttestationHeader
  payload : AuthorizationAttestationPayload
  deriving DecidableEq

/-- External collaborators of `verifyAuthorizationAttestation`:
`jwsService.verifyJws` (called once with the caller-supplied trusted
certificates, and possibly once more with the attestation-header chain),
the X.509 subject reader, the `z.string().url()` validation of the
status-list URI, and `sdJwtService.verify` (`.ok` carries the reported
`isValid`; `.error` models a thrown error). -/
structure AttestationEnv where
  verifyJws : Option (List String) → Except Unit Bool
  certSubject : String → String
  isValidUrl : String → Bool
  sdJwtVerify : Except Unit Bool

/-- `verifyAuthorizationAttestation`.  The initial `try/catch` stores the
JWS outcome in the local flags `isValidAndTrusted` / `isValidButUntrusted`;
the only way it can abort the call is when the first call throws,
`allowUntrustedSigned` is set, and the retry against the header chain
throws as well (that second throw is not caught).  The flags themselves are
never read again. -/
def verifyAuthorizationAttestation (env : AttestationEnv)
    (jwt : AuthorizationAttestationJwt) (resolved : ResolvedAuthorizationRequest)
    (trustedCertificates : Option (List String)) (allowUntrustedSigned : Bool) :
    Except String Unit :=
  let jwsStepThrew : Bool :=
    match env.verifyJws trustedCertificates with
    | .ok _ => false
    | .error _ =>
      if allowUntrustedSigned then
        match env.verifyJws (some (jwt.header.x5c.getD [])) with
        | .ok _ => false
        | .error _ => true
      else false
  if jwsStepThrew then .error "jwsService.verifyJws threw"
  else
    match resolved.signedAuthorizationRequest with
    | none => .error "Authorization request must be signed for the authorization attestation"
    | some sar =>
      if sar.signer.method ≠ "x5c" then
        .error "x5c is only supported for key derivation on the authorization request containing a authorization attestation"
      else
        match sar.signer.x5c.head? with
        | none => .error "X509Certificate.fromEncodedCertificate failed"
        | some enc =>
          if jwt.header.typ ≠ some "dc+sd-jwt" ∨ jwt.header.x5c = none then
            .error "authorization attestation header schema violation"
          else if !env.isValidUrl jwt.payload.status_list_uri then
            .error "authorization attestation payload schema violation"
          else if jwt.payload.sub ≠ env.certSubject enc then
            .error "The Subject of the Authorization Attestation should equal the distinguished of the Relying Party"
          else
            match env.sdJwtVerify with
            | .error _ => .error "sdJwtService.verify threw"
            | .ok false => .error "Could not verify the sd-jwt authorization attestation"
            | .ok true => .ok ()

/-- Environment for the C10 witness: the signature check reports invalid,
everything else passes. -/
def invalidJwsAttestationEnv : AttestationEnv :=
  { verifyJws := fun _ => .ok false,
    certSubject := fun _ => "CN=Trusted RP",
    isValidUrl := fun _ => true,
    sdJwtVerify := .ok true }

/-- A schema-conformant authorization-attestation JWT bound to
`CN=Trusted RP`. -/
def trustedRpAttestationJwt : AuthorizationAttestationJwt :=
  { header := { typ := some "dc+sd-jwt", x5c := some ["chain-cert"] },
    payload := { sub := "CN=Trusted RP" } }

/-! Theorems: helper run lemmas first, then the claim theorems with their witnesses and counterexamples. -/

/-- C7 (amended): for every request query and reference query, if the
reference declares `credential_sets`, or any credential entry of the
reference declares a non-empty id (the JavaScript truthiness test
`c.id` does not detect an empty-string id), then `isDcqlQueryEqualOrSubset`
returns false regardless of the remaining content of either query. -/
theorem c7_reference_guard_rejects (arq rcq : DcqlQuery)
    (h : rcq.credential_sets.isSome = true ∨
         rcq.credentials.any (fun c => truthyStr c.id) = true) :
    isDcqlQueryEqualOrSubset arq rcq = false := by
  unfold isDcqlQueryEqualOrSubset
  rcases h with h | h
  · simp [h]
  · by_cases h1 : rcq.credential_sets.isSome <;> simp [h1, h]

/-- Witness for C7: a concrete reference query with `credential_sets` and a
concrete one with a non-empty credential id are both rejected. -/
theorem c7_reference_guard_rejects_witness :
    ((DcqlQuery.mk [] (some ())).credential_sets.isSome = true ∧
      isDcqlQueryEqualOrSubset emptyRequestQuery (DcqlQuery.mk [] (some ())) = false) ∧
    (identicalQueryWithId.credentials.any (fun c => truthyStr c.id) = true ∧
      isDcqlQueryEqualOrSubset emptyRequestQuery identicalQueryWithId = false) :=
  ⟨⟨by decide, c7_reference_guard_rejects emptyRequestQuery _ (Or.inl (by decide))⟩,
   ⟨by decide, c7_reference_guard_rejects emptyRequestQuery _ (Or.inr (by decide))⟩⟩

/-- Counterexample for C7 as stated: a reference credential entry that
declares an id whose value is the empty string is not detected by the
truthiness check `rcq.credentials.some((c) => c.id)`, and the matcher
returns true for the empty request query against it. -/
theorem c7_counterexample :
    (referenceQueryWithEmptyId.credentials.any (fun c => c.id.isSome) = true) ∧
    isDcqlQueryEqualOrSubset emptyRequestQuery referenceQueryWithEmptyId = true := by
  decide

/-- C4 (amended): when request and reference are the same query and that
query declares neither `credential_sets` nor a (truthy) id on any credential
entry, the context variant of `isDcqlQueryEqualOrSubset` (the revision with
the `deepEquality` short-circuit) returns true, for every DCQL validation
predicate that accepts the query.  The two-argument pure variant does not
satisfy this reflexivity (its `switch` rejects `vc+sd-jwt` entries, see C1). -/
theorem c4_identical_query_accepted (validateOk : DcqlQuery → Bool) (q : DcqlQuery)
    (hv : validateOk q = true)
    (hcs : q.credential_sets = none)
    (hid : q.credentials.all (fun c => !truthyStr c.id) = true) :
    isDcqlQueryEqualOrSubsetCtx validateOk q q = .ok true := by
  unfold isDcqlQueryEqualOrSubsetCtx
  have h2 : q.credentials.any (fun c => truthyStr c.id) = false := by
    rw [List.any_eq_false]
    intro c hc
    have h3 := List.all_eq_true.mp hid c hc
    simpa using h3
  simp [hv, hcs, h2]

/-- Witness for C4: the amended reflexivity at a concrete sd-jwt query. -/
theorem c4_identical_query_accepted_witness :
    isDcqlQueryEqualOrSubsetCtx (fun _ => true) identicalQueryWithoutId identicalQueryWithoutId
      = .ok true :=
  c4_identical_query_accepted (fun _ => true) identicalQueryWithoutId
    (by decide) (by decide) (by decide)

/-- Counterexample for C4 as stated: a structurally identical request and
reference pair on which the matcher returns false, because the reference-side
id guard fires before the deep-equality short-circuit. -/
theorem c4_counterexample :
    isDcqlQueryEqualOrSubsetCtx (fun _ => true) identicalQueryWithId identicalQueryWithId
      = .ok false := by
  rfl

/-- Helper: once the configuration guard, the DCQL guard, the x5c guard, the
JWT parse, the header schema and the certificate-chain head are all passed,
`verifyIfRegistrationCertificate` returns the sequential check result. -/
theorem verifyIfRegistrationCertificate_run (env : CryptoEnv)
    (o : VerifyRegistrationCertificateOptions) (d : DcqlQueryResult)
    (sar : SignedAuthorizationRequest) (jwt : RegistrationCertificateJwt)
    (enc : String) (rest : List String)
    (hcfg : missingTrustAnchors o.trustedCertificates o.allowUntrustedSigned = false)
    (hdcql : o.resolvedAuthorizationRequest.dcql = some d)
    (hpd : o.resolvedAuthorizationRequest.authorizationRequestPayload.presentation_definition = false)
    (hpdu : o.resolvedAuthorizationRequest.authorizationRequestPayload.presentation_definition_uri = false)
    (hsar : o.resolvedAuthorizationRequest.signedAuthorizationRequest = some sar)
    (hm : sar.signer.method = "x5c")
    (hparse : env.parseRegCert o.registrationCertificate = some jwt)
    (htyp : jwt.header.typ = some "rc-rp+jwt")
    (hx : sar.signer.x5c = enc :: rest) :
    verifyIfRegistrationCertificate env o =
      .ok (regCertChecksResult env jwt o.trustedCertificates o.allowUntrustedSigned
            d.queryResult enc) := by
  unfold verifyIfRegistrationCertificate
  simp [hcfg, hdcql, hpd, hpdu, hsar, hm, hparse, htyp, hx]

/-- C1: evidence against the claim.  In the exact scenario-1 setting (DCQL
request asking for the `given_name` claim of a `vc+sd-jwt` `PID` credential,
registration certificate permitting `vc+sd-jwt` `PID` without claims
restriction, subject bound, fresh, trusted signature) the two-argument
matcher returns false, because its `switch` has no `vc+sd-jwt` case, and
`verifyIfRegistrationCertificate` therefore returns `isValid = false` with
the DCQL-compatibility flag set to false.  The context variant of the
matcher accepts the same pair, showing the missing case is a slip. -/
theorem c1_scenario1_rejected_by_code :
    isDcqlQueryEqualOrSubset scenario1RequestQuery
        (registrationCertificateReferenceQuery scenario1Payload) = false ∧
    isDcqlQueryEqualOrSubsetCtx (fun _ => true) scenario1RequestQuery
        (registrationCertificateReferenceQuery scenario1Payload) = .ok true ∧
    verifyIfRegistrationCertificate scenario1Env scenario1Options =
      .ok { isValid := false,
            isRegistrationCertificateQueryEqualOrSubsetOfAuthorizationRequestQuery :=
              some false } :=
  ⟨by decide, by rfl, by rfl⟩

/-- C5: freshness of the registration certificate.  For every run that
reaches the check sequence: if `iat` is present and strictly greater than
the clock (which is nonnegative), the result has `isTimestampValid = false`
and `isValid = false`; if `iat` equals the clock minus one second, the
freshness sub-check passes and `isTimestampValid` is never set. -/
theorem c5_registration_certificate_freshness (env : CryptoEnv)
    (o : VerifyRegistrationCertificateOptions) (d : DcqlQueryResult)
    (sar : SignedAuthorizationRequest) (jwt : RegistrationCertificateJwt)
    (enc : String) (rest : List String)
    (hcfg : missingTrustAnchors o.trustedCertificates o.allowUntrustedSigned = false)
    (hdcql : o.resolvedAuthorizationRequest.dcql = some d)
    (hpd : o.resolvedAuthorizationRequest.authorizationRequestPayload.presentation_definition = false)
    (hpdu : o.resolvedAuthorizationRequest.authorizationRequestPayload.presentation_definition_uri = false)
    (hsar : o.resolvedAuthorizationRequest.signedAuthorizationRequest = some sar)
    (hm : sar.signer.method = "x5c")
    (hparse : env.parseRegCert o.registrationCertificate = some jwt)
    (htyp : jwt.header.typ = some "rc-rp+jwt")
    (hx : sar.signer.x5c = enc :: rest) :
    (∀ v : Int, jwt.payload.iat = some v → env.nowSeconds < v → 0 ≤ env.nowSeconds →
      ∃ r, verifyIfRegistrationCertificate env o = .ok r ∧
        r.isTimestampValid = some false ∧ r.isValid = false) ∧
    (jwt.payload.iat = some (env.nowSeconds - 1) →
      ∃ r, verifyIfRegistrationCertificate env o = .ok r ∧
        r.isTimestampValid = none) := by
  have hrun := verifyIfRegistrationCertificate_run env o d sar jwt enc rest hcfg hdcql hpd
    hpdu hsar hm hparse htyp hx
  constructor
  · intro v hiat hlt hnow
    rw [hrun]
    refine ⟨_, rfl, ?_⟩
    have hstale : staleIatCheck jwt.payload.iat env.nowSeconds = true := by
      rw [hiat]
      unfold staleIatCheck
      have h1 : v ≠ 0 := by omega
      have h2 : env.nowSeconds ≤ v := le_of_lt hlt
      simp [h1, h2]
    unfold regCertChecksResult
    rw [hstale]
    cases hj : jwsCheckOk env
        (jwsCertsInput o.trustedCertificates o.allowUntrustedSigned jwt.header.x5c) <;>
    cases hs : (env.certSubject enc == jwt.payload.sub) <;>
    cases hd : isDcqlQueryEqualOrSubset d.queryResult
        (registrationCertificateReferenceQuery jwt.payload) <;>
    simp [applyJwsCheck, applySubjectCheck, applyTimestampCheck, applyDcqlCheck]
  · intro hiat
    rw [hrun]
    refine ⟨_, rfl, ?_⟩
    have hstale : staleIatCheck jwt.payload.iat env.nowSeconds = false := by
      rw [hiat]
      unfold staleIatCheck
      have h2 : ¬ env.nowSeconds ≤ env.nowSeconds - 1 := by omega
      simp [h2]
    unfold regCertChecksResult
    rw [hstale]
    cases hj : jwsCheckOk env
        (jwsCertsInput o.trustedCertificates o.allowUntrustedSigned jwt.header.x5c) <;>
    cases hs : (env.certSubject enc == jwt.payload.sub) <;>
    cases hd : isDcqlQueryEqualOrSubset d.queryResult
        (registrationCertificateReferenceQuery jwt.payload) <;>
    simp [applyJwsCheck, applySubjectCheck, applyTimestampCheck, applyDcqlCheck]

/-- Witness for C5: at `iat = 200` against a clock of 100 the result has
`isTimestampValid = false` and `isValid = false`; at `iat = 99 = 100 - 1`
the timestamp flag stays unset. -/
theorem c5_registration_certificate_freshness_witness :
    (∃ r, verifyIfRegistrationCertificate futureIatEnv pidRegCertOptions = .ok r ∧
      r.isTimestampValid = some false ∧ r.isValid = false) ∧
    (∃ r, verifyIfRegistrationCertificate pastIatEnv pidRegCertOptions = .ok r ∧
      r.isTimestampValid = none) := by
  constructor
  · exact (c5_registration_certificate_freshness futureIatEnv pidRegCertOptions
      ⟨pidSdJwtRequestQuery⟩ ⟨⟨"x5c", ["rp-cert"]⟩⟩ (pidRegCertJwt (some 200)) "rp-cert" []
      rfl rfl rfl rfl rfl rfl rfl rfl rfl).1 200 rfl (by decide) (by decide)
  · exact (c5_registration_certificate_freshness pastIatEnv pidRegCertOptions
      ⟨pidSdJwtRequestQuery⟩ ⟨⟨"x5c", ["rp-cert"]⟩⟩ (pidRegCertJwt (some 99)) "rp-cert" []
      rfl rfl rfl rfl rfl rfl rfl rfl rfl).2 (by decide)

/-- C6: a failed or thrown signature verification sets `isValid = false` and
`isJwsValid = false` in the returned context but does not short-circuit:
the same call still records the subject-binding, freshness and
DCQL-compatibility outcomes in the result. -/
theorem c6_no_short_circuit_after_jws_failure (env : CryptoEnv)
    (o : VerifyRegistrationCertificateOptions) (d : DcqlQueryResult)
    (sar : SignedAuthorizationRequest) (jwt : RegistrationCertificateJwt)
    (enc : String) (rest : List String)
    (hcfg : missingTrustAnchors o.trustedCertificates o.allowUntrustedSigned = false)
    (hdcql : o.resolvedAuthorizationRequest.dcql = some d)
    (hpd : o.resolvedAuthorizationRequest.authorizationRequestPayload.presentation_definition = false)
    (hpdu : o.resolvedAuthorizationRequest.authorizationRequestPayload.presentation_definition_uri = false)
    (hsar : o.resolvedAuthorizationRequest.signedAuthorizationRequest = some sar)
    (hm : sar.signer.method = "x5c")
    (hparse : env.parseRegCert o.registrationCertificate = some jwt)
    (htyp : jwt.header.typ = some "rc-rp+jwt")
    (hx : sar.signer.x5c = enc :: rest)
    (hjws : jwsCheckOk env
        (jwsCertsInput o.trustedCertificates o.allowUntrustedSigned jwt.header.x5c) = false) :
    ∃ r, verifyIfRegistrationCertificate env o = .ok r ∧
      r.isValid = false ∧ r.isJwsValid = some false ∧
      (r.isAccessCertificateSubjectEqualToRegistrationCertificate = some false ↔
        (env.certSubject enc == jwt.payload.sub) = false) ∧
      (r.isTimestampValid = some false ↔
        staleIatCheck jwt.payload.iat env.nowSeconds = true) ∧
      (r.isRegistrationCertificateQueryEqualOrSubsetOfAuthorizationRequestQuery = some false ↔
        isDcqlQueryEqualOrSubset d.queryResult
          (registrationCertificateReferenceQuery jwt.payload) = false) := by
  rw [verifyIfRegistrationCertificate_run env o d sar jwt enc rest hcfg hdcql hpd hpdu hsar
    hm hparse htyp hx]
  refine ⟨_, rfl, ?_⟩
  unfold regCertChecksResult
  rw [hjws]
  cases hs : (env.certSubject enc == jwt.payload.sub) <;>
  cases ht : staleIatCheck jwt.payload.iat env.nowSeconds <;>
  cases hd : isDcqlQueryEqualOrSubset d.queryResult
      (registrationCertificateReferenceQuery jwt.payload) <;>
  simp [applyJwsCheck, applySubjectCheck, applyTimestampCheck, applyDcqlCheck]

/-- Helper: the `verifyOpenid4VpAuthorizationRequest` loop throws whenever
the remaining list contains an entry with a non-`jwt` format or non-string
data, whatever the classification and verification outcomes of the other
entries. -/
theorem verifyOpenid4VpAuthorizationRequestLoop_error (env : OrchestrationEnv)
    (vas : List VerifierAttestation) :
    ∀ acc, (∃ va ∈ vas, va.format ≠ "jwt" ∨ va.data = JsData.nonString) →
      ∃ m, verifyOpenid4VpAuthorizationRequestLoop env vas acc = .error m := by
  induction vas with
  | nil =>
    intro acc h
    simp at h
  | cons va rest ih =>
    intro acc h
    rcases h with ⟨w, hmem, hbad⟩
    rcases List.mem_cons.mp hmem with rfl | hw
    · rcases hbad with hb | hb
      · exact ⟨"only format of jwt is supported",
          by simp [verifyOpenid4VpAuthorizationRequestLoop, hb]⟩
      · by_cases hf : w.format = "jwt"
        · exact ⟨"Only inline JWTs are supported",
            by simp [verifyOpenid4VpAuthorizationRequestLoop, hf, hb]⟩
        · exact ⟨"only format of jwt is supported",
            by simp [verifyOpenid4VpAuthorizationRequestLoop, hf]⟩
    · by_cases hf : va.format = "jwt"
      · cases hdata : va.data with
        | nonString =>
          exact ⟨"Only inline JWTs are supported",
            by simp [verifyOpenid4VpAuthorizationRequestLoop, hf, hdata]⟩
        | str s =>
          by_cases h1 : env.isRegistrationCertificateCtx s
          · cases h2 : env.verifyIfRegistrationCertificateCtx s with
            | error e =>
              exact ⟨e, by simp [verifyOpenid4VpAuthorizationRequestLoop, hf, hdata, h1, h2]⟩
            | ok c =>
              by_cases h3 : env.isAuthorizationAttestationCtx s
              · cases h4 : env.verifyAuthorizationAttestationCtx s with
                | error e =>
                  exact ⟨e, by
                    simp [verifyOpenid4VpAuthorizationRequestLoop, hf, hdata, h1, h2, h3, h4]⟩
                | ok u =>
                  obtain ⟨m, hm⟩ := ih (some c) ⟨w, hw, hbad⟩
                  exact ⟨m, by
                    simp [verifyOpenid4VpAuthorizationRequestLoop, hf, hdata, h1, h2, h3, h4, hm]⟩
              · obtain ⟨m, hm⟩ := ih (some c) ⟨w, hw, hbad⟩
                exact ⟨m, by
                  simp [verifyOpenid4VpAuthorizationRequestLoop, hf, hdata, h1, h2, h3, hm]⟩
          · by_cases h3 : env.isAuthorizationAttestationCtx s
            · cases h4 : env.verifyAuthorizationAttestationCtx s with
              | error e =>
                exact ⟨e, by simp [verifyOpenid4VpAuthorizationRequestLoop, hf, hdata, h1, h3, h4]⟩
              | ok u =>
                obtain ⟨m, hm⟩ := ih acc ⟨w, hw, hbad⟩
                exact ⟨m, by
                  simp [verifyOpenid4VpAuthorizationRequestLoop, hf, hdata, h1, h3, h4, hm]⟩
            · obtain ⟨m, hm⟩ := ih acc ⟨w, hw, hbad⟩
              exact ⟨m, by simp [verifyOpenid4VpAuthorizationRequestLoop, hf, hdata, h1, h3, hm]⟩
      · exact ⟨"only format of jwt is supported",
          by simp [verifyOpenid4VpAuthorizationRequestLoop, hf]⟩

/-- Helper: the registration-certificate entry-point loop throws whenever
the remaining list contains an entry with non-string data. -/
theorem verifyRegistrationCertificateInOpenid4VpAuthorizationRequestLoop_error
    (env : CryptoEnv) (resolved : ResolvedAuthorizationRequest)
    (tc : Option (List String)) (allow : Bool) (vas : List VerifierAttestation) :
    ∀ acc, (∃ va ∈ vas, va.data = JsData.nonString) →
      ∃ m, verifyRegistrationCertificateInOpenid4VpAuthorizationRequestLoop env resolved
        tc allow vas acc = .error m := by
  induction vas with
  | nil =>
    intro acc h
    simp at h
  | cons va rest ih =>
    intro acc h
    rcases h with ⟨w, hmem, hbad⟩
    rcases List.mem_cons.mp hmem with rfl | hw
    · exact ⟨"Authorization Attestations of string are currently only supported",
        by simp [verifyRegistrationCertificateInOpenid4VpAuthorizationRequestLoop, hbad]⟩
    · cases hdata : va.data with
      | nonString =>
        exact ⟨"Authorization Attestations of string are currently only supported",
          by simp [verifyRegistrationCertificateInOpenid4VpAuthorizationRequestLoop, hdata]⟩
      | str s =>
        by_cases h1 : isRegistrationCertificate env.parseJwtHeader va.format s
        · cases h2 : verifyIfRegistrationCertificate env
              { registrationCertificate := s, resolvedAuthorizationRequest := resolved,
                trustedCertificates := tc, allowUntrustedSigned := allow } with
          | error e =>
            exact ⟨e, by
              simp [verifyRegistrationCertificateInOpenid4VpAuthorizationRequestLoop,
                hdata, h1, h2]⟩
          | ok c =>
            obtain ⟨m, hm⟩ := ih (some c) ⟨w, hw, hbad⟩
            exact ⟨m, by
              simp [verifyRegistrationCertificateInOpenid4VpAuthorizationRequestLoop,
                hdata, h1, h2, hm]⟩
        · obtain ⟨m, hm⟩ := ih acc ⟨w, hw, hbad⟩
          exact ⟨m, by
            simp [verifyRegistrationCertificateInOpenid4VpAuthorizationRequestLoop,
              hdata, h1, hm]⟩

/-- C8 (amended): `verifyOpenid4VpAuthorizationRequest` throws for every
resolved request whose attestation list contains an entry with a non-`jwt`
format or non-string data; the second entry point,
`verifyRegistrationCertificateInOpenid4VpAuthorizationRequest`, throws for
non-string data but carries no format guard (see the counterexample: a
string-data entry with another format is silently skipped). -/
theorem c8_attestation_shape_rejection (env : OrchestrationEnv) (cenv : CryptoEnv)
    (resolved : ResolvedAuthorizationRequest) (tc : Option (List String)) (allow : Bool)
    (vas : List VerifierAttestation)
    (hvas : resolved.authorizationRequestPayload.verifier_attestations = some vas) :
    ((∃ va ∈ vas, va.format ≠ "jwt" ∨ va.data = JsData.nonString) →
      ∃ m, verifyOpenid4VpAuthorizationRequest env resolved = .error m) ∧
    ((∃ va ∈ vas, va.data = JsData.nonString) →
      ∃ m, verifyRegistrationCertificateInOpenid4VpAuthorizationRequest cenv resolved tc allow
        = .error m) := by
  constructor
  · intro h
    unfold verifyOpenid4VpAuthorizationRequest
    rw [hvas]
    exact verifyOpenid4VpAuthorizationRequestLoop_error env vas none h
  · intro h
    unfold verifyRegistrationCertificateInOpenid4VpAuthorizationRequest
    rw [hvas]
    exact verifyRegistrationCertificateInOpenid4VpAuthorizationRequestLoop_error cenv resolved
      tc allow vas none h

/-- Witness for C8: the first entry point throws on a `cheese`-format
attestation; the second throws on non-string attestation data. -/
theorem c8_attestation_shape_rejection_witness :
    (∃ m, verifyOpenid4VpAuthorizationRequest plainOrchestrationEnv nonJwtAttestationRequest
      = .error m) ∧
    (∃ m, verifyRegistrationCertificateInOpenid4VpAuthorizationRequest scenario1Env
      nonStringAttestationRequest (some ["anchor"]) false = .error m) :=
  ⟨(c8_attestation_shape_rejection plainOrchestrationEnv scenario1Env nonJwtAttestationRequest
      (some ["anchor"]) false _ rfl).1
      ⟨{ format := "cheese", data := .str "x" }, by decide, Or.inl (by decide)⟩,
   (c8_attestation_shape_rejection plainOrchestrationEnv scenario1Env nonStringAttestationRequest
      (some ["anchor"]) false _ rfl).2
      ⟨{ format := "jwt", data := .nonString }, by decide, rfl⟩⟩

/-- Counterexample for C8 as stated: the registration-certificate entry
point does not throw on an attestation whose format is not `jwt` when its
data is an inline string; it silently skips the entry and returns
`undefined`. -/
theorem c8_counterexample :
    (({ format := "cheese", data := .str "x" } : VerifierAttestation).format ≠ "jwt") ∧
    verifyRegistrationCertificateInOpenid4VpAuthorizationRequest scenario1Env
      nonJwtAttestationRequest (some ["anchor"]) false = .ok none :=
  ⟨by decide, by rfl⟩

/-- Witness for C6: with a reported-invalid signature and a mismatching
subject, the call returns a context with `isValid = false`,
`isJwsValid = false`, and the subject-binding failure recorded too. -/
theorem c6_no_short_circuit_after_jws_failure_witness :
    ∃ r, verifyIfRegistrationCertificate failedJwsEnv pidRegCertOptions = .ok r ∧
      r.isValid = false ∧ r.isJwsValid = some false ∧
      (r.isAccessCertificateSubjectEqualToRegistrationCertificate = some false ↔
        (failedJwsEnv.certSubject "rp-cert" == (pidRegCertJwt (some 50)).payload.sub) = false) ∧
      (r.isTimestampValid = some false ↔
        staleIatCheck (pidRegCertJwt (some 50)).payload.iat failedJwsEnv.nowSeconds = true) ∧
      (r.isRegistrationCertificateQueryEqualOrSubsetOfAuthorizationRequestQuery = some false ↔
        isDcqlQueryEqualOrSubset pidSdJwtRequestQuery
          (registrationCertificateReferenceQuery (pidRegCertJwt (some 50)).payload) = false) :=
  c6_no_short_circuit_after_jws_failure failedJwsEnv pidRegCertOptions
    ⟨pidSdJwtRequestQuery⟩ ⟨⟨"x5c", ["rp-cert"]⟩⟩ (pidRegCertJwt (some 50)) "rp-cert" []
    rfl rfl rfl rfl rfl rfl rfl rfl rfl rfl

/-- C2: evidence against the claim.  `isAuthorizationAttestation` returns
false for every attestation with format `jwt`, whatever its data and
whatever the JWT parse yields, because the implementation first requires the
format to equal the misspelled literal `eudi_registration_certifiate`; for
that literal it returns true unconditionally (the inner
`isRegistrationCertificate` call is handed the same non-`jwt` format and
always answers false). -/
theorem c2_authorization_attestation_format_gate
    (parseJwtHeader : String → Option JwtHeader) (s : String) :
    isAuthorizationAttestation parseJwtHeader "jwt" s = false ∧
    isAuthorizationAttestation parseJwtHeader "eudi_registration_certifiate" s = true := by
  constructor <;> simp [isAuthorizationAttestation, isRegistrationCertificate]

/-- C3: evidence against the claim.  With the scenario-4 policy
`{ allowlist: ["CN=Trusted RP"] }` stored on `credential-1` and an
x5c-signed request, the throw-mode evaluator throws the unsupported-policy
error for the trusted subject as well as for the other subject, and neither
message names the credential id: the dispatcher looks for the camel-cased
key `allowList`, which the policy object does not carry. -/
theorem c3_allowlist_policy_misdispatch :
    verifyAuthorizationForOpenid4VpAuthorizationRequest trustedSubjectEnv x5cSignedResolved
        allowlistMatchedCredentials none
      = .error "Found an unsupported disclosure policy: [object Object]" ∧
    verifyAuthorizationForOpenid4VpAuthorizationRequest otherSubjectEnv x5cSignedResolved
        allowlistMatchedCredentials none
      = .error "Found an unsupported disclosure policy: [object Object]" :=
  ⟨rfl, rfl⟩

/-- C9: evidence.  With an x5c-signed request and a matched credential that
stores no disclosure policy, the throw-mode evaluator indeed completes
without throwing, but the diagnostic evaluator returns `isValid = false`
with the empty policy map: the `.some(...)` aggregate over an empty
`disclosurePolicies` object is `false`, which the final
`every((value) => value !== false)` treats as a failure. -/
theorem c9_absent_policy_behaviour :
    verifyAuthorizationForOpenid4VpAuthorizationRequest trustedSubjectEnv x5cSignedResolved
        noPolicyMatchedCredentials none = .ok () ∧
    verifyAuthorizationForOpenid4VpAuthorizationRequestDiagnostic trustedSubjectEnv
        x5cSignedResolved noPolicyMatchedCredentials
      = .ok { isValid := false, isSignedWithX509 := true, disclosurePolicies := [] } :=
  ⟨rfl, rfl⟩

/-- C10: when `jwsService.verifyJws` reports an invalid signature without
throwing, or throws while `allowUntrustedSigned` is unset, the outcome of
`verifyAuthorizationAttestation` equals an expression that does not mention
the signature verification at all: only the signing guard, the schema
checks, the subject binding and the SD-JWT verification decide the call. -/
theorem c10_jws_outcome_never_read (env : AttestationEnv)
    (jwt : AuthorizationAttestationJwt) (resolved : ResolvedAuthorizationRequest)
    (trustedCertificates : Option (List String)) (allowUntrustedSigned : Bool)
    (h : env.verifyJws trustedCertificates = .ok false ∨
         (env.verifyJws trustedCertificates = .error () ∧ allowUntrustedSigned = false)) :
    verifyAuthorizationAttestation env jwt resolved trustedCertificates allowUntrustedSigned =
      (match resolved.signedAuthorizationRequest with
       | none => .error "Authorization request must be signed for the authorization attestation"
       | some sar =>
         if sar.signer.method ≠ "x5c" then
           .error "x5c is only supported for key derivation on the authorization request containing a authorization attestation"
         else
           match sar.signer.x5c.head? with
           | none => .error "X509Certificate.fromEncodedCertificate failed"
           | some enc =>
             if jwt.header.typ ≠ some "dc+sd-jwt" ∨ jwt.header.x5c = none then
               .error "authorization attestation header schema violation"
             else if !env.isValidUrl jwt.payload.status_list_uri then
               .error "authorization attestation payload schema violation"
             else if jwt.payload.sub ≠ env.certSubject enc then
               .error "The Subject of the Authorization Attestation should equal the distinguished of the Relying Party"
             else
               match env.sdJwtVerify with
               | .error _ => .error "sdJwtService.verify threw"
               | .ok false => .error "Could not verify the sd-jwt authorization attestation"
               | .ok true => .ok ()) := by
  unfold verifyAuthorizationAttestation
  rcases h with h | ⟨h, rfl⟩ <;> simp [h]

/-- Witness for C10 at a concrete environment whose JWS verification reports
an invalid signature: the call still reduces to the signature-independent
expression (which here succeeds). -/
theorem c10_jws_outcome_never_read_witness :
    verifyAuthorizationAttestation invalidJwsAttestationEnv trustedRpAttestationJwt
        x5cSignedResolved (some ["anchor"]) false =
      (match x5cSignedResolved.signedAuthorizationRequest with
       | none => .error "Authorization request must be signed for the authorization attestation"
       | some sar =>
         if sar.signer.method ≠ "x5c" then
           .error "x5c is only supported for key derivation on the authorization request containing a authorization attestation"
         else
           match sar.signer.x5c.head? with
           | none => .error "X509Certificate.fromEncodedCertificate failed"
           | some enc =>
             if trustedRpAttestationJwt.header.typ ≠ some "dc+sd-jwt" ∨
                 trustedRpAttestationJwt.header.x5c = none then
               .error "authorization attestation header schema violation"
             else if !invalidJwsAttestationEnv.isValidUrl
                 trustedRpAttestationJwt.payload.status_list_uri then
               .error "authorization attestation payload schema violation"
             else if trustedRpAttestationJwt.payload.sub ≠
                 invalidJwsAttestationEnv.certSubject enc then
               .error "The Subject of the Authorization Attestation should equal the distinguished of the Relying Party"
             else
               match invalidJwsAttestationEnv.sdJwtVerify with
               | .error _ => .error "sdJwtService.verify threw"
               | .ok false => .error "Could not verify the sd-jwt authorization attestation"
               | .ok true => .ok ()) :=
  c10_jws_outcome_never_read invalidJwsAttestationEnv trustedRpAttestationJwt
    x5cSignedResolved (some ["anchor"]) false (Or.inl rfl)

end EudiWallet
